import Mathlib

/-
Verification of the stream-management core of rtsp2web (src/main.py) against
its natural-language specification.

The embedding models `StreamManager` state as association lists keyed by the
stream url (Python dicts with string keys), wall-clock time as `Nat`, the
external transport (cv2.VideoCapture) as an oracle parameter: the outcome of
an `open` call is an `Option Nat` handle, the outcome of a `grab`/`retrieve`
cycle is a `Bool` and an `Option RawFrame`, and jpeg encoding is an oracle
function `RawFrame → Option String`.
-/

namespace Rtsp2Web

/-- Status values of `StreamStatus` (main.py lines 95-100) plus the raw
string "idle" that `_idle_checker` stores in the same dict (line 346). -/
inductive StreamStatus where
  | connected
  | connecting
  | error
  | reconnecting
  | cooldown
  | idle
  deriving DecidableEq, Repr

/-- The tunables of `Config` (main.py lines 26-44) that the stream-management
core reads, plus the configured stream list as (url, name) pairs. -/
structure Config where
  fps : Nat
  quality : Nat
  max_width : Nat
  max_retries : Nat
  retry_interval : Nat
  idle_timeout : Nat
  streams : List (String × String)
  deriving Repr

/-- A raw decoded image; only its pixel dimensions matter to the core
(`frame.shape[1]` is the width, `frame.shape[0]` the height). -/
structure RawFrame where
  width : Nat
  height : Nat
  deriving DecidableEq, Repr

/-- Insert-or-overwrite for an association list, modelling `d[k] = v` on a
Python dict with unique keys. -/
def setKey {α : Type} (k : String) (v : α) : List (String × α) → List (String × α)
  | [] => [(k, v)]
  | (k', v') :: t => if k = k' then (k, v) :: t else (k', v') :: setKey k v t

/-- Key removal for an association list, modelling `del d[k]`. -/
def eraseKey {α : Type} (k : String) : List (String × α) → List (String × α)
  | [] => []
  | (k', v') :: t => if k = k' then eraseKey k t else (k', v') :: eraseKey k t

/-- The mutable state of `StreamManager` (main.py lines 108-118).
`captures` maps a url to its open transport handle (a `cv2.VideoCapture`,
modelled by a `Nat` id); `last_frames` is the last-frame cache of encoded
(base64 jpeg) frames; `connection_errors` maps a url to
`(lastErrorTimestamp, consecutiveErrorCount)`; `threads_alive` records, for
each url registered in `processing_threads`, whether that thread is alive;
`stop_flags` records each `threading.Event`'s set/clear state. -/
structure SMState where
  captures : List (String × Nat)
  last_frames : List (String × String)
  last_frame_times : List (String × Nat)
  connection_errors : List (String × (Nat × Nat))
  stream_status : List (String × StreamStatus)
  frame_buffers : List (String × List String)
  threads_alive : List (String × Bool)
  stop_flags : List (String × Bool)
  last_access_times : List (String × Nat)
  deriving Repr

/-- `StreamManager._handle_connection_error` (main.py lines 304-312):
bump (or create at 1) the consecutive error count with the current time,
and set the stream status to ERROR. -/
def handle_connection_error (now : Nat) (s : SMState) (url : String) : SMState :=
  let ce :=
    match s.connection_errors.lookup url with
    | some (_, n) => (now, n + 1)
    | none => (now, 1)
  { s with
    connection_errors := setKey url ce s.connection_errors
    stream_status := setKey url StreamStatus.error s.stream_status }

/-- Result of `StreamManager.get_stream`: the returned capture handle, the
updated manager state, and whether the external transport open
(`cv2.VideoCapture(stream_url)`, main.py line 237) was invoked. -/
structure GetStreamResult where
  ret : Option Nat
  st : SMState
  openInvoked : Bool
  deriving Repr

/-- The open attempt of `get_stream` (main.py lines 233-252): set the status
to CONNECTING, invoke the external open; on failure record a connection
error (which sets status ERROR) and return nothing; on success drop the
url's error record, set status CONNECTED and install the capture. -/
def open_attempt (now : Nat) (openResult : Option Nat) (s1 : SMState)
    (url : String) : GetStreamResult :=
  let s2 := { s1 with stream_status := setKey url StreamStatus.connecting s1.stream_status }
  match openResult with
  | none => ⟨none, handle_connection_error now s2 url, true⟩
  | some h =>
    ⟨some h,
      { s2 with
        connection_errors := eraseKey url s2.connection_errors
        stream_status := setKey url StreamStatus.connected s2.stream_status
        captures := setKey url h s2.captures },
      true⟩

/-- `StreamManager.get_stream` (main.py lines 173-282). `openResult` is the
oracle outcome of the external transport open: `some h` when
`cv2.VideoCapture` yields an opened capture, `none` when it fails. The
url-classification and option-string construction (lines 189-232) and the
best-effort property hints (lines 254-280) affect no manager state and are
not modelled. When the url already has a capture it is returned as is;
otherwise, when the url has reached `max_retries` consecutive errors and is
still within `retry_interval` of the last one, status becomes COOLDOWN and
no open is attempted; an expired cooldown record is dropped before the
attempt. -/
def get_stream (cfg : Config) (now : Nat) (openResult : Option Nat)
    (s : SMState) (url : String) : GetStreamResult :=
  match s.captures.lookup url with
  | some cap => ⟨some cap, s, false⟩
  | none =>
    match s.connection_errors.lookup url with
    | some (t, n) =>
      if cfg.max_retries ≤ n then
        if now - t < cfg.retry_interval then
          ⟨none, { s with stream_status := setKey url StreamStatus.cooldown s.stream_status },
            false⟩
        else
          open_attempt now openResult
            { s with connection_errors := eraseKey url s.connection_errors } url
      else open_attempt now openResult s url
    | none => open_attempt now openResult s url

/-- The frame value `get_frame` reads at its tail (main.py lines 299-302):
`frame_buffers[url][-1]` when that buffer exists and is non-empty, else
`last_frames.get(url)`. -/
def cached_view (s : SMState) (url : String) : Option String :=
  match (s.frame_buffers.lookup url).bind List.getLast? with
  | some f => some f
  | none => s.last_frames.lookup url

/-- Result of `StreamManager.get_frame`: the returned frame (if any), the
updated manager state, whether the external transport open was invoked on
this call, and whether a new frame-processing thread was started. -/
structure GetFrameResult where
  ret : Option String
  st : SMState
  openInvoked : Bool
  pumpStarted : Bool
  deriving Repr

/-- The first line of `get_frame` (main.py line 286): record the access
time for the url. -/
def touch_access (now : Nat) (s : SMState) (url : String) : SMState :=
  { s with last_access_times := setKey url now s.last_access_times }

/-- `StreamManager.get_frame` (main.py lines 284-302): record the access
time; when the url has no capture, call `get_stream` and return `None` if it
fails; otherwise start a processing thread when none is alive; finally
return the newest buffered frame, else the last-frame cache entry. -/
def get_frame (cfg : Config) (now : Nat) (openResult : Option Nat)
    (s : SMState) (url : String) : GetFrameResult :=
  let s0 := touch_access now s url
  match s.captures.lookup url with
  | some _ => ⟨cached_view s0 url, s0, false, false⟩
  | none =>
    let r := get_stream cfg now openResult s0 url
    match r.ret with
    | none => ⟨none, r.st, r.openInvoked, false⟩
    | some _ =>
      let aliveOk :=
        match r.st.threads_alive.lookup url with
        | some true => true
        | _ => false
      if aliveOk then ⟨cached_view r.st url, r.st, r.openInvoked, false⟩
      else
        let s2 := { r.st with
          stop_flags := setKey url false r.st.stop_flags
          threads_alive := setKey url true r.st.threads_alive }
        ⟨cached_view s2 url, s2, r.openInvoked, true⟩

/-- The frame-downsampling step of `_process_frames` (main.py lines 143-147):
when the width exceeds `max_width`, resize to width exactly `max_width` and
height `int(height * (max_width / width))`, modelled by the rational floor
`height * max_width / width`; otherwise leave the frame untouched. -/
def resize_frame (cfg : Config) (f : RawFrame) : RawFrame :=
  if cfg.max_width < f.width then
    ⟨cfg.max_width, f.height * cfg.max_width / f.width⟩
  else f

/-- Appending to a `collections.deque` with `maxlen = cap`: the element goes
on the right and, past capacity, elements are discarded from the left. -/
def dequePush (cap : Nat) (l : List String) (x : String) : List String :=
  if cap < (l ++ [x]).length then (l ++ [x]).drop ((l ++ [x]).length - cap) else l ++ [x]

/-- One iteration of the `_process_frames` loop body (main.py lines 124-167)
for a live (non-cancelled) pump. `grabOk` is the oracle outcome of
`cap.grab()`, `retrieved` of `cap.retrieve()`, and `encoded` of
`cv2.imencode` plus base64 (yielding the stored string, or `none` when
encoding fails). A grab failure records a connection error, releases and
removes the capture and marks the stream RECONNECTING; a successful frame is
resized, encoded, stored in `last_frames`/`last_frame_times`, and appended
to the url's bounded buffer (created at `maxlen = 3` on first use). -/
def pump_step (cfg : Config) (now : Nat) (s : SMState) (url : String)
    (grabOk : Bool) (retrieved : Option RawFrame)
    (encoded : RawFrame → Option String) : SMState :=
  match s.captures.lookup url with
  | none => s
  | some _ =>
    if grabOk then
      match retrieved with
      | none => s
      | some frame =>
        let frame' := resize_frame cfg frame
        match encoded frame' with
        | none => s
        | some fb =>
          let buf := (s.frame_buffers.lookup url).getD []
          { s with
            last_frames := setKey url fb s.last_frames
            last_frame_times := setKey url now s.last_frame_times
            frame_buffers := setKey url (dequePush 3 buf fb) s.frame_buffers }
    else
      let s1 := handle_connection_error now s url
      { s1 with
        captures := eraseKey url s1.captures
        stream_status := setKey url StreamStatus.reconnecting s1.stream_status }

/-- The per-url body of `_idle_checker` (main.py lines 336-346): when the
url's last access time is recorded (and truthy) and older than
`idle_timeout`, set the url's stop event if registered, release and remove
the capture if present, and store the status string "idle". -/
def teardown_if_idle (cfg : Config) (now : Nat) (s : SMState) (url : String) : SMState :=
  match s.last_access_times.lookup url with
  | none => s
  | some la =>
    if 0 < la ∧ cfg.idle_timeout < now - la then
      let s1 := { s with
        stop_flags :=
          match s.stop_flags.lookup url with
          | some _ => setKey url true s.stop_flags
          | none => s.stop_flags }
      let s2 := { s1 with captures := eraseKey url s1.captures }
      { s2 with stream_status := setKey url StreamStatus.idle s2.stream_status }
    else s

/-- One sweep of the `_idle_checker` loop (main.py lines 334-347): iterate
over a snapshot of the currently captured urls. -/
def idle_sweep (cfg : Config) (now : Nat) (s : SMState) : SMState :=
  (s.captures.map Prod.fst).foldl (teardown_if_idle cfg now) s

/-- `StreamManager.get_stream_status` (main.py lines 314-319): for an
in-range index, the recorded status of the configured url with `ERROR` as
the dict default; for an out-of-range index, `ERROR` as well. -/
def get_stream_status (cfg : Config) (s : SMState) (index : Int) : StreamStatus :=
  if 0 ≤ index ∧ index < (cfg.streams.length : Int) then
    match cfg.streams.get? index.toNat with
    | some st => (s.stream_status.lookup st.1).getD StreamStatus.error
    | none => StreamStatus.error
  else StreamStatus.error

/-- `StreamManager.get_error_count` (main.py lines 321-326). -/
def get_error_count (s : SMState) (url : String) : Nat :=
  match s.connection_errors.lookup url with
  | some (_, n) => n
  | none => 0

/-- Outcome of the `/api/frame/{stream_index}` route as seen by the caller:
HTTP 404, HTTP 503, or a 200 with the frame. -/
inductive ApiFrameResult where
  | notFound
  | unavailable
  | ok (frame : String)
  deriving DecidableEq, Repr

/-- The `/api/frame/{stream_index}` route handler (main.py lines 391-405):
404 when the integer index is out of range, otherwise `get_frame` on the
configured url, 503 when it yields no frame, 200 with the frame otherwise. -/
def api_get_frame (cfg : Config) (now : Nat) (openResult : Option Nat)
    (s : SMState) (index : Int) : ApiFrameResult × SMState :=
  if index < 0 ∨ (cfg.streams.length : Int) ≤ index then (ApiFrameResult.notFound, s)
  else
    match cfg.streams.get? index.toNat with
    | none => (ApiFrameResult.notFound, s)
    | some stream =>
      let r := get_frame cfg now openResult s stream.1
      match r.ret with
      | none => (ApiFrameResult.unavailable, r.st)
      | some f => (ApiFrameResult.ok f, r.st)

/-- The manager state at process start (main.py lines 108-118): all dicts
empty. -/
def initialState : SMState :=
  ⟨[], [], [], [], [], [], [], [], []⟩

/-- State shared between two `get_frame` callers racing on the same
not-yet-started url: whether the url is in `captures`, whether a processing
thread is registered for it in `processing_threads`, how many live pump
threads have been started, and each caller's program counter through the
session-start section of `get_frame`. -/
structure RaceState where
  captured : Bool
  threadRegistered : Bool
  pumps : Nat
  pcA : Nat
  pcB : Nat
  deriving DecidableEq, Repr

/-- One atomic step of caller A (`isB = false`) or caller B (`isB = true`)
through the session-start path of `get_frame` (main.py lines 287-298) with a
succeeding open. Program counter 0 is the `url not in self.captures` test
(line 287); 1 is the `get_stream` call, which installs the capture when
absent and returns the existing one otherwise (lines 237, 281-282); 2 is the
thread-liveness test `url not in self.processing_threads or not
...is_alive()` (line 292); 3 starts a new processing thread and registers it
(lines 293-298); 4 is the buffer-read tail, where the caller is done
starting anything. The interpreter may switch between the two callers at any
of these boundaries. -/
def callerStep (isB : Bool) (r : RaceState) : RaceState :=
  let pc := if isB then r.pcB else r.pcA
  let withPc : RaceState → Nat → RaceState := fun r' n =>
    if isB then { r' with pcB := n } else { r' with pcA := n }
  match pc with
  | 0 => if r.captured then withPc r 4 else withPc r 1
  | 1 => withPc { r with captured := true } 2
  | 2 => if r.threadRegistered then withPc r 4 else withPc r 3
  | 3 => withPc { r with threadRegistered := true, pumps := r.pumps + 1 } 4
  | _ => r

/-- Run two racing `get_frame` callers under an interleaving schedule:
`false` schedules a step of caller A, `true` a step of caller B, starting
from an unstarted stream. -/
def runRace (sched : List Bool) : RaceState :=
  sched.foldl (fun r b => callerStep b r) ⟨false, false, 0, 0, 0⟩

/-- Example configuration: the defaults of `Config` (main.py lines 26-44)
with one configured stream named "cam" at url "u". -/
def cfgEx : Config := ⟨10, 80, 1280, 3, 5, 120, [("u", "cam")]⟩

/-- Encoding oracle that always encodes to the string "d". -/
def encEx : RawFrame → Option String := fun _ => some "d"

/-- Manager state with one open capture for url "u" and no buffered
frames. -/
def sEx8 : SMState := ⟨[("u", 1)], [], [], [], [], [], [], [], []⟩

/-- Example configuration with `max_width = 640`, as in the spec's resize
scenario. -/
def cfgC9 : Config := ⟨10, 80, 640, 3, 5, 120, [("u", "cam")]⟩

/-- Manager state holding a cached last frame for url "u" but no live
capture (the situation right after an idle teardown once the buffers are
handed over, or mid-reconnect). -/
def sC1 : SMState := ⟨[], [("u", "cached")], [], [], [], [], [], [], []⟩

/-- First frame request of the always-failing-open scenario, at time 0. -/
def c2s1 : GetFrameResult := get_frame cfgEx 0 none initialState "u"

/-- Second failing request, at time 1. -/
def c2s2 : GetFrameResult := get_frame cfgEx 1 none c2s1.st "u"

/-- Third failing request, at time 2: the error count reaches
`max_retries = 3`. -/
def c2s3 : GetFrameResult := get_frame cfgEx 2 none c2s2.st "u"

/-- Fourth request, at time 3, inside the 5-second cooldown window. -/
def c2s4 : GetFrameResult := get_frame cfgEx 3 none c2s3.st "u"

/-- Fifth request, at time 8, after the cooldown window has elapsed. -/
def c2s5 : GetFrameResult := get_frame cfgEx 8 none c2s4.st "u"

/-- Manager state with a live capture for url "u", a live pump thread and no
recorded connection errors. -/
def sC3 : SMState :=
  ⟨[("u", 1)], [], [], [], [("u", StreamStatus.connected)], [], [("u", true)],
    [("u", false)], [("u", 1)]⟩

/-- Manager state for the idle-teardown scenario: a live capture, a live
pump thread, one buffered frame, a cached last frame, last access at
time 1. -/
def sC4 : SMState :=
  ⟨[("u", 1)], [("u", "f1")], [("u", 1)], [], [("u", StreamStatus.connected)],
    [("u", ["f1"])], [("u", true)], [("u", false)], [("u", 1)]⟩

/-- Status registry after a failed open for the configured url "u" of
`cfgEx`. -/
def sC6 : SMState := ⟨[], [], [], [], [("u", StreamStatus.error)], [], [], [], []⟩

/-- Manager state with no capture for "u" and a below-threshold error
record (one prior open failure at time 0): the next call is a retry that
reaches the external open again. -/
def sC5 : SMState := ⟨[], [], [], [("u", (0, 1))], [("u", StreamStatus.error)], [], [], [], []⟩

theorem beq_false_of_ne {k k' : String} (h : k ≠ k') : (k == k') = false := by
  simp [beq_iff_eq, h]

theorem lookup_setKey_self {α : Type} (k : String) (v : α) (l : List (String × α)) :
    (setKey k v l).lookup k = some v := by
  induction l with
  | nil => simp [setKey, List.lookup]
  | cons p t ih =>
    obtain ⟨k', v'⟩ := p
    by_cases h : k = k'
    · simp [setKey, h, List.lookup]
    · simp [setKey, h, List.lookup, ih, beq_false_of_ne h]

theorem lookup_setKey_ne {α : Type} {k k' : String} (v : α) (l : List (String × α))
    (h : k' ≠ k) : (setKey k v l).lookup k' = l.lookup k' := by
  induction l with
  | nil => simp [setKey, List.lookup, beq_false_of_ne h]
  | cons p t ih =>
    obtain ⟨k₀, v₀⟩ := p
    by_cases hk : k = k₀
    · subst hk
      simp [setKey, List.lookup, beq_false_of_ne h]
    · simp only [setKey, if_neg hk, List.lookup]
      by_cases hk' : k' = k₀
      · simp [hk', beq_self_eq_true]
      · simp [beq_false_of_ne hk', ih]

theorem lookup_eraseKey_self {α : Type} (k : String) (l : List (String × α)) :
    (eraseKey k l).lookup k = none := by
  induction l with
  | nil => simp [eraseKey, List.lookup]
  | cons p t ih =>
    obtain ⟨k', v'⟩ := p
    by_cases h : k = k'
    · subst h
      simp only [eraseKey, if_pos rfl]
      exact ih
    · simp [eraseKey, h, List.lookup, beq_false_of_ne h, ih]

theorem lookup_eraseKey_ne {α : Type} {k k' : String} (l : List (String × α))
    (h : k' ≠ k) : (eraseKey k l).lookup k' = l.lookup k' := by
  induction l with
  | nil => simp [eraseKey]
  | cons p t ih =>
    obtain ⟨k₀, v₀⟩ := p
    by_cases hk : k = k₀
    · subst hk
      simp [eraseKey, List.lookup, beq_false_of_ne h, ih]
    · simp only [eraseKey, if_neg hk, List.lookup]
      by_cases hk' : k' = k₀
      · simp [hk', beq_self_eq_true]
      · simp [beq_false_of_ne hk', ih]

@[simp] theorem touch_access_captures (now : Nat) (s : SMState) (url : String) :
    (touch_access now s url).captures = s.captures := rfl

@[simp] theorem touch_access_last_frames (now : Nat) (s : SMState) (url : String) :
    (touch_access now s url).last_frames = s.last_frames := rfl

@[simp] theorem touch_access_connection_errors (now : Nat) (s : SMState) (url : String) :
    (touch_access now s url).connection_errors = s.connection_errors := rfl

@[simp] theorem touch_access_stream_status (now : Nat) (s : SMState) (url : String) :
    (touch_access now s url).stream_status = s.stream_status := rfl

@[simp] theorem touch_access_frame_buffers (now : Nat) (s : SMState) (url : String) :
    (touch_access now s url).frame_buffers = s.frame_buffers := rfl

@[simp] theorem touch_access_last_access_times (now : Nat) (s : SMState) (url : String) :
    (touch_access now s url).last_access_times = setKey url now s.last_access_times := rfl

theorem get_stream_when_captured (cfg : Config) (now : Nat) (o : Option Nat)
    (s : SMState) (url : String) (cap : Nat)
    (hc : s.captures.lookup url = some cap) :
    get_stream cfg now o s url = ⟨some cap, s, false⟩ := by
  unfold get_stream
  rw [hc]

theorem get_stream_cooldown_active (cfg : Config) (now : Nat) (o : Option Nat)
    (s : SMState) (url : String) (t n : Nat)
    (hc : s.captures.lookup url = none)
    (he : s.connection_errors.lookup url = some (t, n))
    (hn : cfg.max_retries ≤ n) (ht : now - t < cfg.retry_interval) :
    get_stream cfg now o s url
      = ⟨none, { s with stream_status := setKey url StreamStatus.cooldown s.stream_status },
          false⟩ := by
  unfold get_stream
  rw [hc, he]
  simp [hn, ht]

theorem get_stream_no_errors (cfg : Config) (now : Nat) (o : Option Nat)
    (s : SMState) (url : String)
    (hc : s.captures.lookup url = none)
    (he : s.connection_errors.lookup url = none) :
    get_stream cfg now o s url = open_attempt now o s url := by
  unfold get_stream
  rw [hc, he]

theorem get_stream_below_threshold (cfg : Config) (now : Nat) (o : Option Nat)
    (s : SMState) (url : String) (t n : Nat)
    (hc : s.captures.lookup url = none)
    (he : s.connection_errors.lookup url = some (t, n))
    (hn : n < cfg.max_retries) :
    get_stream cfg now o s url = open_attempt now o s url := by
  unfold get_stream
  rw [hc, he]
  simp [Nat.not_le.mpr hn]

theorem get_stream_cooldown_expired (cfg : Config) (now : Nat) (o : Option Nat)
    (s : SMState) (url : String) (t n : Nat)
    (hc : s.captures.lookup url = none)
    (he : s.connection_errors.lookup url = some (t, n))
    (hn : cfg.max_retries ≤ n) (ht : cfg.retry_interval ≤ now - t) :
    get_stream cfg now o s url
      = open_attempt now o
          { s with connection_errors := eraseKey url s.connection_errors } url := by
  unfold get_stream
  rw [hc, he]
  simp [hn, Nat.not_lt.mpr ht]

theorem open_attempt_fail (now : Nat) (s : SMState) (url : String) :
    open_attempt now none s url
      = ⟨none,
          handle_connection_error now
            { s with stream_status := setKey url StreamStatus.connecting s.stream_status } url,
          true⟩ := rfl

theorem open_attempt_ok (now : Nat) (h : Nat) (s : SMState) (url : String) :
    open_attempt now (some h) s url
      = ⟨some h,
          { s with
            connection_errors := eraseKey url s.connection_errors
            stream_status :=
              setKey url StreamStatus.connected (setKey url StreamStatus.connecting s.stream_status)
            captures := setKey url h s.captures },
          true⟩ := rfl

theorem get_stream_ret_of_fail (cfg : Config) (now : Nat) (s : SMState) (url : String)
    (hc : s.captures.lookup url = none) :
    (get_stream cfg now none s url).ret = none := by
  unfold get_stream
  rw [hc]
  rcases he : s.connection_errors.lookup url with _ | ⟨t, n⟩
  · rfl
  · by_cases hn : cfg.max_retries ≤ n
    · by_cases ht : now - t < cfg.retry_interval
      · simp [hn, ht]
      · simp [hn, ht, open_attempt_fail]
    · simp [hn, open_attempt_fail]

theorem dequePush_length_le (l : List String) (x : String) :
    (dequePush 3 l x).length ≤ 3 := by
  simp only [dequePush]
  split
  · simp only [List.length_drop]
    omega
  · next hlt => omega

theorem pump_step_buffers_cases (cfg : Config) (now : Nat) (s : SMState) (url : String)
    (grabOk : Bool) (retrieved : Option RawFrame) (encoded : RawFrame → Option String) :
    (pump_step cfg now s url grabOk retrieved encoded).frame_buffers = s.frame_buffers
    ∨ ∃ fb, (pump_step cfg now s url grabOk retrieved encoded).frame_buffers
        = setKey url (dequePush 3 ((s.frame_buffers.lookup url).getD []) fb) s.frame_buffers := by
  unfold pump_step
  split
  · left; rfl
  · split
    · split
      · left; rfl
      · dsimp only
        split
        · left; rfl
        · right; exact ⟨_, rfl⟩
    · left; rfl

/-- C8: at every point in execution each frame buffer holds at most 3
frames (the only writer, one `_process_frames` iteration, preserves the
bound), and appending to a full deque of capacity 3 evicts the oldest
(leftmost) entry first. -/
theorem C8_frame_buffer_bound (cfg : Config) (now : Nat) (s : SMState) (url : String)
    (grabOk : Bool) (retrieved : Option RawFrame) (encoded : RawFrame → Option String)
    (hinv : ∀ u b, s.frame_buffers.lookup u = some b → b.length ≤ 3) :
    (∀ u b, (pump_step cfg now s url grabOk retrieved encoded).frame_buffers.lookup u = some b →
        b.length ≤ 3)
    ∧ (∀ (l : List String) (x : String), (dequePush 3 l x).length ≤ 3)
    ∧ (∀ (l : List String) (x : String), l.length = 3 → dequePush 3 l x = l.tail ++ [x]) := by
  refine ⟨?_, fun l x => dequePush_length_le l x, ?_⟩
  · intro u b hb
    rcases pump_step_buffers_cases cfg now s url grabOk retrieved encoded with h | ⟨fb, h⟩
    · rw [h] at hb
      exact hinv u b hb
    · rw [h] at hb
      by_cases hu : u = url
      · subst hu
        rw [lookup_setKey_self] at hb
        cases hb
        exact dequePush_length_le _ _
      · rw [lookup_setKey_ne _ _ hu] at hb
        exact hinv u b hb
  · intro l x hlen
    rcases l with _ | ⟨a, t⟩
    · simp at hlen
    · simp only [List.length_cons] at hlen
      have ht : t.length = 2 := by omega
      simp [dequePush, ht]

theorem C8_frame_buffer_bound_witness :
    (["d"] : List String).length ≤ 3 :=
  (C8_frame_buffer_bound cfgEx 9 sEx8 "u" true (some ⟨100, 50⟩) encEx
      (by intro u b h; simp [List.lookup] at h)).1 "u" ["d"] (by decide)

/-- C9: a successfully pulled frame wider than `max_width` is resized to
width exactly `max_width` with height `height * max_width / width`, which
preserves the aspect ratio within rounding (the scaled height is the floor
of the exact ratio); a frame of width at most `max_width` is published
unresized. -/
theorem C9_resize_downsample (cfg : Config) (f : RawFrame) :
    (cfg.max_width < f.width →
      (resize_frame cfg f).width = cfg.max_width
      ∧ (resize_frame cfg f).height = f.height * cfg.max_width / f.width
      ∧ (resize_frame cfg f).height * f.width ≤ f.height * cfg.max_width
      ∧ f.height * cfg.max_width < ((resize_frame cfg f).height + 1) * f.width)
    ∧ (f.width ≤ cfg.max_width → resize_frame cfg f = f) := by
  constructor
  · intro h
    have hw : 0 < f.width := Nat.lt_of_le_of_lt (Nat.zero_le _) h
    have hres : resize_frame cfg f = ⟨cfg.max_width, f.height * cfg.max_width / f.width⟩ := by
      rw [resize_frame, if_pos h]
    rw [hres]
    refine ⟨rfl, rfl, Nat.div_mul_le_self _ _, ?_⟩
    have h1 := Nat.div_add_mod (f.height * cfg.max_width) f.width
    have h2 := Nat.mod_lt (f.height * cfg.max_width) hw
    have h3 : (f.height * cfg.max_width / f.width + 1) * f.width
        = f.width * (f.height * cfg.max_width / f.width) + f.width := by ring
    rw [h3]
    linarith [h1, h2]
  · intro h
    simp [resize_frame, Nat.not_lt.mpr h]

theorem C9_resize_downsample_witness :
    (resize_frame cfgC9 ⟨1280, 720⟩).width = 640
    ∧ resize_frame cfgC9 ⟨600, 400⟩ = ⟨600, 400⟩ :=
  ⟨((C9_resize_downsample cfgC9 ⟨1280, 720⟩).1 (by decide)).1,
    (C9_resize_downsample cfgC9 ⟨600, 400⟩).2 (by decide)⟩

/-- C10: for an in-range index whose configured url has no entry in the
status registry (never accessed), `get_stream_status` returns ERROR, the
registry's dict-lookup default, with no distinct "not started"
indication. -/
theorem C10_unknown_url_status (cfg : Config) (s : SMState) (index : Int)
    (u nm : String)
    (hidx : 0 ≤ index ∧ index < (cfg.streams.length : Int))
    (hget : cfg.streams.get? index.toNat = some (u, nm))
    (hnone : s.stream_status.lookup u = none) :
    get_stream_status cfg s index = StreamStatus.error := by
  unfold get_stream_status
  rw [if_pos hidx, hget]
  simp [hnone]

theorem C10_unknown_url_status_witness :
    get_stream_status cfgEx initialState 0 = StreamStatus.error :=
  C10_unknown_url_status cfgEx initialState 0 "u" "cam" (by decide) rfl rfl

/-- C7 (code defect): under the interleaving in which callers A and B
alternate single steps on the same unstarted url, both pass the
thread-liveness test of main.py line 292 before either registers its thread
at line 298, so two live pump threads are started for one url; under the
serialized schedule where A finishes before B starts, only one pump is ever
started. -/
theorem C7_duplicate_pump_race :
    (runRace [false, true, false, true, false, true, false, true]).pumps = 2
    ∧ (runRace [false, false, false, false, true, true, true, true]).pumps = 1 := by
  decide

theorem cached_view_congr (s s' : SMState) (url : String)
    (hb : s'.frame_buffers = s.frame_buffers) (hf : s'.last_frames = s.last_frames) :
    cached_view s' url = cached_view s url := by
  unfold cached_view
  rw [hb, hf]

theorem get_stream_st_fields (cfg : Config) (now : Nat) (o : Option Nat)
    (s : SMState) (url : String) :
    (get_stream cfg now o s url).st.frame_buffers = s.frame_buffers
    ∧ (get_stream cfg now o s url).st.last_frames = s.last_frames
    ∧ (get_stream cfg now o s url).st.last_access_times = s.last_access_times
    ∧ (get_stream cfg now o s url).st.threads_alive = s.threads_alive := by
  unfold get_stream open_attempt handle_connection_error
  rcases o with _ | h <;>
  · dsimp only
    repeat' split
    all_goals exact ⟨rfl, rfl, rfl, rfl⟩

theorem get_frame_st_last_access (cfg : Config) (now : Nat) (o : Option Nat)
    (s : SMState) (url : String) :
    (get_frame cfg now o s url).st.last_access_times.lookup url = some now := by
  unfold get_frame
  dsimp only
  split
  · exact lookup_setKey_self _ _ _
  · split
    · rw [(get_stream_st_fields cfg now o _ url).2.2.1]
      exact lookup_setKey_self _ _ _
    · split
      · rw [(get_stream_st_fields cfg now o _ url).2.2.1]
        exact lookup_setKey_self _ _ _
      · rw [(get_stream_st_fields cfg now o _ url).2.2.1]
        exact lookup_setKey_self _ _ _

theorem get_frame_ret_captured (cfg : Config) (now : Nat) (o : Option Nat)
    (s : SMState) (url : String) (cap : Nat)
    (hc : s.captures.lookup url = some cap) :
    (get_frame cfg now o s url).ret = cached_view s url := by
  unfold get_frame
  rw [hc]
  rfl

theorem get_frame_ret_of_get_stream_none (cfg : Config) (now : Nat) (o : Option Nat)
    (s : SMState) (url : String)
    (hc : s.captures.lookup url = none)
    (hf : (get_stream cfg now o (touch_access now s url) url).ret = none) :
    (get_frame cfg now o s url).ret = none := by
  unfold get_frame
  dsimp only
  rw [hc, hf]

theorem get_frame_ret_of_get_stream_some (cfg : Config) (now : Nat) (o : Option Nat)
    (s : SMState) (url : String) (h : Nat)
    (hc : s.captures.lookup url = none)
    (hs : (get_stream cfg now o (touch_access now s url) url).ret = some h) :
    (get_frame cfg now o s url).ret = cached_view s url := by
  unfold get_frame
  dsimp only
  rw [hc, hs]
  dsimp only
  have hb : (get_stream cfg now o (touch_access now s url) url).st.frame_buffers
      = s.frame_buffers := (get_stream_st_fields cfg now o _ url).1
  have hfr : (get_stream cfg now o (touch_access now s url) url).st.last_frames
      = s.last_frames := (get_stream_st_fields cfg now o _ url).2.1
  split
  · exact cached_view_congr s _ url hb hfr
  · exact cached_view_congr s _ url hb hfr

/-- C1 (counterexample): with last-frame cache entry "cached" for url "u"
and no live session, a `get_frame` call whose transport open fails returns
nothing-available, not the cached frame: main.py lines 288-290 return
`None` before the cache at lines 299-302 is ever consulted. -/
theorem C1_failed_start_drops_cache :
    (get_frame cfgEx 10 none sC1 "u").ret = none
    ∧ sC1.last_frames.lookup "u" = some "cached" := by
  decide

/-- C1 (amended): `get_frame` always records the access time; with a live
capture it returns the newest buffered frame, else the last-frame cache
value, else nothing. Without a live capture it tries to start one, and when
that start fails — because the open fails, or because the stream is inside
an active cooldown window — it returns nothing-available even when the
cache holds a frame; only when the start succeeds does the call fall
through to the newest-buffered/cached/nothing rule. -/
theorem C1_get_frame_cache (cfg : Config) (now : Nat) (openRes : Option Nat)
    (s : SMState) (url : String) :
    (get_frame cfg now openRes s url).st.last_access_times.lookup url = some now
    ∧ ((s.captures.lookup url).isSome →
        (get_frame cfg now openRes s url).ret = cached_view s url)
    ∧ (s.captures.lookup url = none → openRes = none →
        (get_frame cfg now openRes s url).ret = none)
    ∧ (∀ t n, s.captures.lookup url = none →
        s.connection_errors.lookup url = some (t, n) →
        cfg.max_retries ≤ n → now - t < cfg.retry_interval →
        (get_frame cfg now openRes s url).ret = none)
    ∧ (∀ h, s.captures.lookup url = none → openRes = some h →
        (∀ t n, s.connection_errors.lookup url = some (t, n) →
          cfg.max_retries ≤ n → cfg.retry_interval ≤ now - t) →
        (get_frame cfg now openRes s url).ret = cached_view s url) := by
  refine ⟨get_frame_st_last_access cfg now openRes s url, ?_, ?_, ?_, ?_⟩
  · intro hs
    obtain ⟨cap, hc⟩ := Option.isSome_iff_exists.mp hs
    exact get_frame_ret_captured cfg now openRes s url cap hc
  · intro hc ho
    subst ho
    exact get_frame_ret_of_get_stream_none cfg now none s url hc
      (get_stream_ret_of_fail cfg now _ url hc)
  · intro t n hc he hn ht
    have hc' : (touch_access now s url).captures.lookup url = none := hc
    have he' : (touch_access now s url).connection_errors.lookup url = some (t, n) := he
    refine get_frame_ret_of_get_stream_none cfg now openRes s url hc ?_
    rw [get_stream_cooldown_active cfg now openRes (touch_access now s url) url t n hc' he' hn ht]
  · intro h hc ho hcool
    subst ho
    have hc' : (touch_access now s url).captures.lookup url = none := hc
    refine get_frame_ret_of_get_stream_some cfg now (some h) s url h hc ?_
    rcases he : s.connection_errors.lookup url with _ | ⟨t, n⟩
    · have he' : (touch_access now s url).connection_errors.lookup url = none := he
      rw [get_stream_no_errors cfg now (some h) (touch_access now s url) url hc' he',
        open_attempt_ok]
    · have he' : (touch_access now s url).connection_errors.lookup url = some (t, n) := he
      by_cases hn : cfg.max_retries ≤ n
      · have ht := hcool t n he hn
        rw [get_stream_cooldown_expired cfg now (some h) (touch_access now s url) url t n
            hc' he' hn ht, open_attempt_ok]
      · rw [get_stream_below_threshold cfg now (some h) (touch_access now s url) url t n
            hc' he' (Nat.not_le.mp hn), open_attempt_ok]

theorem C1_get_frame_cache_witness :
    (get_frame cfgEx 10 none sC1 "u").st.last_access_times.lookup "u" = some 10
    ∧ (get_frame cfgEx 10 none sC1 "u").ret = none :=
  ⟨(C1_get_frame_cache cfgEx 10 none sC1 "u").1,
    (C1_get_frame_cache cfgEx 10 none sC1 "u").2.2.1 rfl rfl⟩

/-- C2 (counterexample): with `max_retries = 3` and an always-failing open,
the third call leaves the status at ERROR (the error count has reached 3,
but COOLDOWN is only stored by a later call that finds the count at the
threshold, main.py line 183); the claim's sequence ending in COOLDOWN after
three calls is false on the code. -/
theorem C2_third_failure_status_error :
    c2s3.st.stream_status.lookup "u" = some StreamStatus.error
    ∧ c2s3.st.connection_errors.lookup "u" = some (2, 3)
    ∧ some StreamStatus.error ≠ some StreamStatus.cooldown := by
  decide

theorem get_frame_cooldown_window (cfg : Config) (now : Nat) (o : Option Nat)
    (s : SMState) (url : String) (t n : Nat)
    (hc : s.captures.lookup url = none)
    (he : s.connection_errors.lookup url = some (t, n))
    (hn : cfg.max_retries ≤ n) (ht : now - t < cfg.retry_interval) :
    (get_frame cfg now o s url).openInvoked = false
    ∧ (get_frame cfg now o s url).ret = none
    ∧ (get_frame cfg now o s url).st.stream_status.lookup url
        = some StreamStatus.cooldown := by
  have hc' : (touch_access now s url).captures.lookup url = none := hc
  have he' : (touch_access now s url).connection_errors.lookup url = some (t, n) := he
  have hgs := get_stream_cooldown_active cfg now o (touch_access now s url) url t n hc' he' hn ht
  unfold get_frame
  dsimp only
  rw [hc, hgs]
  exact ⟨rfl, rfl, lookup_setKey_self _ _ _⟩

/-- C2 (amended): after `max_retries` consecutive open failures the status
is ERROR (three failing calls at times 0, 1, 2 give ERROR each time); any
call made while the error count is at the threshold and within
`retry_interval` of the last failure invokes no open, returns
nothing-available and only then stores COOLDOWN (shown generally, and by
the 4th call of the scenario at time 3); once `retry_interval` has elapsed
the next call attempts the open again (the 5th call at time 8). -/
theorem C2_cooldown_behavior (cfg : Config) (now : Nat) (o : Option Nat)
    (s : SMState) (url : String) (t n : Nat)
    (hc : s.captures.lookup url = none)
    (he : s.connection_errors.lookup url = some (t, n))
    (hn : cfg.max_retries ≤ n) (ht : now - t < cfg.retry_interval) :
    (get_frame cfg now o s url).openInvoked = false
    ∧ (get_frame cfg now o s url).ret = none
    ∧ (get_frame cfg now o s url).st.stream_status.lookup url = some StreamStatus.cooldown
    ∧ c2s1.st.stream_status.lookup "u" = some StreamStatus.error
    ∧ c2s2.st.stream_status.lookup "u" = some StreamStatus.error
    ∧ c2s3.st.stream_status.lookup "u" = some StreamStatus.error
    ∧ c2s4.openInvoked = false
    ∧ c2s4.ret = none
    ∧ c2s4.st.stream_status.lookup "u" = some StreamStatus.cooldown
    ∧ c2s5.openInvoked = true := by
  obtain ⟨h1, h2, h3⟩ := get_frame_cooldown_window cfg now o s url t n hc he hn ht
  exact ⟨h1, h2, h3, by decide, by decide, by decide, by decide, by decide, by decide, by decide⟩

theorem C2_cooldown_behavior_witness :
    (get_frame cfgEx 3 none c2s3.st "u").openInvoked = false :=
  (C2_cooldown_behavior cfgEx 3 none c2s3.st "u" 2 3 (by decide) (by decide) (by decide)
    (by decide)).1

/-- C3 (counterexample): a mid-stream grab (pull) failure also increments
the consecutive error count — `_process_frames` calls
`_handle_connection_error` on `cap.grab()` failure (main.py line 132) — so
the count does not increment only on open failures. -/
theorem C3_grab_failure_increments :
    get_error_count sC3 "u" = 0
    ∧ get_error_count (pump_step cfgEx 7 sC3 "u" false none encEx) "u" = 1 := by
  decide

/-- C3 (amended): the consecutive error count increments on a transport
open failure and also on a mid-stream grab (pull) failure; the record is
discarded (count 0) on open success, and also when `retry_interval` has
elapsed after reaching `max_retries` — just before the next attempt, so a
new failure then restarts the count at 1. -/
theorem C3_error_count_events (cfg : Config) (now : Nat) (s : SMState) (url : String) :
    ((s.captures.lookup url).isSome →
      ∀ retrieved encoded,
        get_error_count (pump_step cfg now s url false retrieved encoded) url
          = get_error_count s url + 1)
    ∧ (∀ t n, s.captures.lookup url = none →
        s.connection_errors.lookup url = some (t, n) → n < cfg.max_retries →
        get_error_count (get_stream cfg now none s url).st url = n + 1)
    ∧ (s.captures.lookup url = none → s.connection_errors.lookup url = none →
        get_error_count (get_stream cfg now none s url).st url = 1)
    ∧ (∀ h, s.captures.lookup url = none →
        (∀ t n, s.connection_errors.lookup url = some (t, n) →
          cfg.max_retries ≤ n → cfg.retry_interval ≤ now - t) →
        get_error_count (get_stream cfg now (some h) s url).st url = 0)
    ∧ (∀ t n, s.captures.lookup url = none →
        s.connection_errors.lookup url = some (t, n) →
        cfg.max_retries ≤ n → cfg.retry_interval ≤ now - t →
        get_error_count (get_stream cfg now none s url).st url = 1) := by
  refine ⟨?_, ?_, ?_, ?_, ?_⟩
  · intro hs retrieved encoded
    obtain ⟨cap, hc⟩ := Option.isSome_iff_exists.mp hs
    rcases he : s.connection_errors.lookup url with _ | ⟨t0, n0⟩ <;>
      simp [pump_step, hc, handle_connection_error, get_error_count, he, lookup_setKey_self]
  · intro t n hc he hn
    rw [get_stream_below_threshold cfg now none s url t n hc he hn, open_attempt_fail]
    simp [handle_connection_error, get_error_count, he, lookup_setKey_self]
  · intro hc he
    rw [get_stream_no_errors cfg now none s url hc he, open_attempt_fail]
    simp [handle_connection_error, get_error_count, he, lookup_setKey_self]
  · intro h hc hcool
    rcases he : s.connection_errors.lookup url with _ | ⟨t, n⟩
    · rw [get_stream_no_errors cfg now (some h) s url hc he, open_attempt_ok]
      simp [get_error_count, lookup_eraseKey_self]
    · by_cases hn : cfg.max_retries ≤ n
      · rw [get_stream_cooldown_expired cfg now (some h) s url t n hc he hn (hcool t n he hn),
          open_attempt_ok]
        simp [get_error_count, lookup_eraseKey_self]
      · rw [get_stream_below_threshold cfg now (some h) s url t n hc he (Nat.not_le.mp hn),
          open_attempt_ok]
        simp [get_error_count, lookup_eraseKey_self]
  · intro t n hc he hn ht
    rw [get_stream_cooldown_expired cfg now none s url t n hc he hn ht, open_attempt_fail]
    simp [handle_connection_error, get_error_count, lookup_eraseKey_self, lookup_setKey_self]

theorem C3_error_count_events_witness :
    get_error_count (get_stream cfgEx 0 none initialState "u").st "u" = 1 :=
  (C3_error_count_events cfgEx 0 initialState "u").2.2.1 rfl rfl

/-- C4 (counterexample): the idle sweep removes the capture and stores the
idle status, but the url's frame buffer still holds its frame afterwards —
`_idle_checker` (main.py lines 332-347) never clears `frame_buffers`, so the
claim that teardown "clears the session's frameBuffer" is false on the
code. -/
theorem C4_reaper_keeps_buffer :
    (idle_sweep cfgEx 200 sC4).captures.lookup "u" = none
    ∧ (idle_sweep cfgEx 200 sC4).stream_status.lookup "u" = some StreamStatus.idle
    ∧ (idle_sweep cfgEx 200 sC4).frame_buffers.lookup "u" = some ["f1"] := by
  decide

/-- C4 (amended): when the reaper's per-url check finds a (truthy) last
access older than `idle_timeout`, it sets the url's registered stop event,
removes the capture from the active set and sets the status to IDLE — and
it leaves both the frame buffer and the last-frame cache unchanged. -/
theorem C4_reaper_teardown (cfg : Config) (now : Nat) (s : SMState) (url : String) (la : Nat)
    (hla : s.last_access_times.lookup url = some la) (hpos : 0 < la)
    (hidle : cfg.idle_timeout < now - la)
    (hsf : (s.stop_flags.lookup url).isSome) :
    (teardown_if_idle cfg now s url).stop_flags.lookup url = some true
    ∧ (teardown_if_idle cfg now s url).captures.lookup url = none
    ∧ (teardown_if_idle cfg now s url).stream_status.lookup url = some StreamStatus.idle
    ∧ (teardown_if_idle cfg now s url).frame_buffers = s.frame_buffers
    ∧ (teardown_if_idle cfg now s url).last_frames = s.last_frames := by
  obtain ⟨fl, hf⟩ := Option.isSome_iff_exists.mp hsf
  unfold teardown_if_idle
  rw [hla, hf]
  dsimp only
  rw [if_pos (show 0 < la ∧ cfg.idle_timeout < now - la from ⟨hpos, hidle⟩)]
  exact ⟨lookup_setKey_self _ _ _, lookup_eraseKey_self _ _, lookup_setKey_self _ _ _, rfl, rfl⟩

theorem C4_reaper_teardown_witness :
    (teardown_if_idle cfgEx 200 sC4 "u").captures.lookup "u" = none
    ∧ (teardown_if_idle cfgEx 200 sC4 "u").frame_buffers = sC4.frame_buffers :=
  ⟨(C4_reaper_teardown cfgEx 200 sC4 "u" 1 rfl (by decide) (by decide) (by decide)).2.1,
    (C4_reaper_teardown cfgEx 200 sC4 "u" 1 rfl (by decide) (by decide) (by decide)).2.2.2.1⟩

/-- C5 (counterexample): on a fresh state, a `get_frame` call invokes the
external transport open on the caller's path (main.py line 288 calls
`get_stream`, which runs `cv2.VideoCapture` at line 237), so `get_frame`
does not only read cached state. -/
theorem C5_open_on_caller_path :
    (get_frame cfgEx 0 (some 7) initialState "u").openInvoked = true := by
  decide

/-- C5 (amended): when a live capture exists, `get_frame` performs no open
on the caller's path and only records the access time; but when no live
capture exists (and the stream has no error record gating it into
cooldown), the external transport open IS invoked on the caller's path.
Frame pulls are never performed by `get_frame`: only the pump loop
(`pump_step`) invokes grab/retrieve. -/
theorem get_frame_open_invoked_of_attempt (cfg : Config) (now : Nat) (o : Option Nat)
    (s s1 : SMState) (url : String)
    (hc : s.captures.lookup url = none)
    (hgs : get_stream cfg now o (touch_access now s url) url = open_attempt now o s1 url) :
    (get_frame cfg now o s url).openInvoked = true := by
  unfold get_frame
  dsimp only
  rw [hc, hgs]
  rcases o with _ | h
  · rw [open_attempt_fail]
  · rw [open_attempt_ok]
    dsimp only
    split
    · rfl
    · rfl

/-- C5 (amended): when a live capture exists, `get_frame` performs no open
on the caller's path and only records the access time; but when no live
capture exists and the stream is not gated by an active cooldown window —
no error record, a below-threshold record, or an expired one — the
external transport open IS invoked on the caller's path. Frame pulls are
never performed by `get_frame`: only the pump loop (`pump_step`) invokes
grab/retrieve. -/
theorem C5_caller_path_effects (cfg : Config) (now : Nat) (o : Option Nat)
    (s : SMState) (url : String) :
    ((s.captures.lookup url).isSome →
      (get_frame cfg now o s url).openInvoked = false
      ∧ (get_frame cfg now o s url).st = touch_access now s url)
    ∧ (s.captures.lookup url = none →
      (∀ t n, s.connection_errors.lookup url = some (t, n) →
        cfg.max_retries ≤ n → cfg.retry_interval ≤ now - t) →
      (get_frame cfg now o s url).openInvoked = true) := by
  constructor
  · intro hs
    obtain ⟨cap, hc⟩ := Option.isSome_iff_exists.mp hs
    constructor
    · unfold get_frame
      rw [hc]
    · unfold get_frame
      rw [hc]
  · intro hc hcool
    have hc' : (touch_access now s url).captures.lookup url = none := hc
    rcases he : s.connection_errors.lookup url with _ | ⟨t, n⟩
    · have he' : (touch_access now s url).connection_errors.lookup url = none := he
      exact get_frame_open_invoked_of_attempt cfg now o s _ url hc
        (get_stream_no_errors cfg now o (touch_access now s url) url hc' he')
    · have he' : (touch_access now s url).connection_errors.lookup url = some (t, n) := he
      by_cases hn : cfg.max_retries ≤ n
      · exact get_frame_open_invoked_of_attempt cfg now o s _ url hc
          (get_stream_cooldown_expired cfg now o (touch_access now s url) url t n hc' he' hn
            (hcool t n he hn))
      · exact get_frame_open_invoked_of_attempt cfg now o s _ url hc
          (get_stream_below_threshold cfg now o (touch_access now s url) url t n hc' he'
            (Nat.not_le.mp hn))

theorem C5_caller_path_effects_witness :
    (get_frame cfgEx 0 (some 7) sEx8 "u").openInvoked = false
    ∧ (get_frame cfgEx 1 none sC5 "u").openInvoked = true :=
  ⟨((C5_caller_path_effects cfgEx 0 (some 7) sEx8 "u").1 (by decide)).1,
    (C5_caller_path_effects cfgEx 1 none sC5 "u").2 rfl
      (by
        intro t n h h3
        simp [List.lookup] at h
        simp [cfgEx] at h3
        omega)⟩

/-- C6 (counterexample): `get_stream_status` answers ERROR for the
out-of-range indices 5 and -1, exactly the value it answers for the
in-range stream whose transport failed — the status operation signals no
distinct "not found" condition for an out-of-range index (main.py
line 319). -/
theorem C6_status_conflates_not_found :
    get_stream_status cfgEx sC6 5 = StreamStatus.error
    ∧ get_stream_status cfgEx sC6 (-1) = StreamStatus.error
    ∧ get_stream_status cfgEx sC6 0 = StreamStatus.error := by
  decide

/-- C6 (amended): the frame route keeps the two error kinds distinct — an
out-of-range index yields 404 not-found and an in-range index with no
obtainable frame yields 503 unavailable — but `get_stream_status` returns
the plain ERROR status for an out-of-range index, the same value as for a
failed stream, with no distinct not-found signal. -/
theorem C6_error_kinds (cfg : Config) (now : Nat) (o : Option Nat)
    (s : SMState) (index : Int) :
    ((index < 0 ∨ (cfg.streams.length : Int) ≤ index) →
      (api_get_frame cfg now o s index).1 = ApiFrameResult.notFound
      ∧ get_stream_status cfg s index = StreamStatus.error)
    ∧ (∀ u nm, 0 ≤ index → index < (cfg.streams.length : Int) →
        cfg.streams.get? index.toNat = some (u, nm) →
        ((get_frame cfg now o s u).ret = none →
          (api_get_frame cfg now o s index).1 = ApiFrameResult.unavailable)
        ∧ (∀ f, (get_frame cfg now o s u).ret = some f →
          (api_get_frame cfg now o s index).1 = ApiFrameResult.ok f)) := by
  constructor
  · intro h
    constructor
    · unfold api_get_frame
      rw [if_pos h]
    · unfold get_stream_status
      rw [if_neg (by omega)]
  · intro u nm h0 hlen hget
    constructor
    · intro hnone
      unfold api_get_frame
      rw [if_neg (by omega), hget]
      dsimp only
      rw [hnone]
    · intro f hf
      unfold api_get_frame
      rw [if_neg (by omega), hget]
      dsimp only
      rw [hf]

theorem C6_error_kinds_witness :
    (api_get_frame cfgEx 0 none sC6 5).1 = ApiFrameResult.notFound
    ∧ (api_get_frame cfgEx 0 none sC6 0).1 = ApiFrameResult.unavailable :=
  ⟨((C6_error_kinds cfgEx 0 none sC6 5).1 (by decide)).1,
    ((C6_error_kinds cfgEx 0 none sC6 0).2 "u" "cam" (by decide) (by decide) rfl).1 (by decide)⟩

end Rtsp2Web
